import Mathlib

/-!
Verification of the indicator-acquisition-and-composite-scoring engine of the
csv-generator repository, as a shallow embedding in Lean 4.

Conventions of the embedding:
- Python floats are modelled as exact rationals; float rounding noise, NaN and
  infinity are outside the model.
- Python dicts whose entries are data are modelled as association lists; lookup
  is by the first matching key, as for a dict built without duplicate keys.
- Transcendental library routines, such as sqrt, log1p and expm1, are passed
  as abstract function parameters, since the statements proved here do not
  depend on their values.
- Model-fitting stages, namely ARIMA fitting and exponential smoothing, are
  modelled as an oracle returning an optional result: none models the stage
  raising an exception, which the source catches before falling through.
- The built-in round with two decimal digits is modelled as round2 below;
  the source never feeds it an exact half at the second decimal, where the
  bankers rounding of Python and round-half-up differ.
-/

/-- Last element of a list with a default, mirroring a Python expression
of the shape xs[-1], by structural recursion so that it evaluates. -/
def lastD {α : Type} (d : α) : List α → α
  | [] => d
  | [a] => a
  | _ :: a :: as => lastD d (a :: as)

/-- Lookup of the value stored for a key in an association list, mirroring
a Python dict access: first matching entry wins. -/
def findPair {α β : Type} [DecidableEq α] : List (α × β) → α → Option β
  | [], _ => none
  | p :: ps, k => if p.1 = k then some p.2 else findPair ps k

/-- Python dict.get with a default. -/
def dictGet {α β : Type} [DecidableEq α] (l : List (α × β)) (k : α) (d : β) : β :=
  (findPair l k).getD d

/-- Sum of a list of rationals. -/
def qsum (l : List ℚ) : ℚ := l.foldr (· + ·) 0

/-- Arithmetic mean of a list of rationals, with the numpy convention that
the mean of the empty list is a division by zero, which in this exact model
yields 0. -/
def listMean (l : List ℚ) : ℚ := qsum l / l.length

/-- Population variance of a list of rationals, mirroring numpy var. -/
def listVar (l : List ℚ) : ℚ :=
  qsum (l.map (fun x => (x - listMean l) ^ 2)) / l.length

/-- Consecutive differences of a list, mirroring numpy diff. -/
def listDiff (l : List ℚ) : List ℚ := List.zipWith (fun a b => b - a) l l.tail

/-- The last n elements of a list, mirroring a Python slice xs[-n:]. -/
def lastN (n : ℕ) (l : List ℚ) : List ℚ := l.drop (l.length - n)

/-- Insert an integer into a sorted list, keeping it sorted. -/
def insertSorted (y : ℤ) : List ℤ → List ℤ
  | [] => [y]
  | x :: xs => if y ≤ x then y :: x :: xs else x :: insertSorted y xs

/-- Sort a list of integers ascending, mirroring the Python sorted builtin
on the int keys of a dict. -/
def sortInts (l : List ℤ) : List ℤ := l.foldr insertSorted []

/-- Rounding to two decimal digits, mirroring round(x, 2): the model uses
round-half-up, which agrees with the bankers rounding of Python away from
exact half-cent ties. -/
def round2 (x : ℚ) : ℚ := (⌊x * 100 + 1 / 2⌋ : ℚ) / 100

/-!
## First-pass instability index, from generar_json.py

calculate_turchin_instability of generar_json.py, lines 553 to 599: a weighted
sum over a fixed six-indicator dict, per-indicator normalization, a delta
adjustment, a forecast adjustment, a clamp to the unit interval and a rounding
to two decimals, then a three-tier status.
-/

/-- The fixed first-pass weights dict, generar_json.py lines 554 to 561. -/
def turchin_weights : List (String × ℚ) :=
  [("elite_overproduction", 0.25),
   ("wealth_concentration", 0.20),
   ("institutional_distrust", 0.18),
   ("social_polarization", 0.15),
   ("youth_unemployment", 0.12),
   ("neet_ratio", 0.10)]

/-- Per-indicator normalization used inside the first-pass instability sum,
generar_json.py lines 568 to 575. -/
def turchin_norm (indicator : String) (value : ℚ) : ℚ :=
  if indicator = "elite_overproduction" then min 1 (value / 0.15)
  else if indicator = "wealth_concentration" then min 1 (value / 0.7)
  else if indicator = "social_polarization" ∨ indicator = "institutional_distrust" then
    min 1 value
  else min 1 (value / 100)

/-- One weighted term of the first-pass sum: an indicator absent from the
dict is skipped, generar_json.py lines 563 to 576. -/
def turchinTerm (indicators : List (String × ℚ)) (k : String) (w : ℚ) : ℚ :=
  match findPair indicators k with
  | none => 0
  | some v => w * turchin_norm k v

/-- The delta adjustment: positive deltas on the weighted indicators add up,
scaled by 0.1, generar_json.py line 581. -/
def turchinDeltaTerm (deltas : List (String × ℚ)) (k : String) : ℚ :=
  let d := dictGet deltas k 0
  if 0 < d then d else 0

/-- The forecast adjustment term: a projected rise above the current value
adds up, scaled by 0.05, generar_json.py lines 583 to 589. -/
def turchinForecastTerm (indicators forecasts : List (String × ℚ)) (k : String) : ℚ :=
  match findPair indicators k with
  | none => 0
  | some v => max 0 (dictGet forecasts k v - v) * 0.05

/-- The unclamped first-pass instability sum, generar_json.py lines 562
to 590, written out over the six literal keys of the weights dict. -/
def turchin_instability_score (indicators deltas forecasts : List (String × ℚ)) : ℚ :=
  (turchinTerm indicators "elite_overproduction" 0.25
   + turchinTerm indicators "wealth_concentration" 0.20
   + turchinTerm indicators "institutional_distrust" 0.18
   + turchinTerm indicators "social_polarization" 0.15
   + turchinTerm indicators "youth_unemployment" 0.12
   + turchinTerm indicators "neet_ratio" 0.10)
  + (turchinDeltaTerm deltas "elite_overproduction"
     + turchinDeltaTerm deltas "wealth_concentration"
     + turchinDeltaTerm deltas "institutional_distrust"
     + turchinDeltaTerm deltas "social_polarization"
     + turchinDeltaTerm deltas "youth_unemployment"
     + turchinDeltaTerm deltas "neet_ratio") * 0.1
  + (turchinForecastTerm indicators forecasts "elite_overproduction"
     + turchinForecastTerm indicators forecasts "wealth_concentration"
     + turchinForecastTerm indicators forecasts "institutional_distrust"
     + turchinForecastTerm indicators forecasts "social_polarization"
     + turchinForecastTerm indicators forecasts "youth_unemployment"
     + turchinForecastTerm indicators forecasts "neet_ratio")

/-- Result record of either instability computation. -/
structure TurchinResult where
  status : String
  valor : ℚ
  deriving Repr, DecidableEq

/-- First-pass instability, generar_json.py lines 553 to 599: the clamped,
rounded score with its status tier, thresholds 0.5 critical and 0.35 alert. -/
def calculate_turchin_instability (indicators deltas forecasts : List (String × ℚ)) :
    TurchinResult :=
  let final_score := round2 (min 1 (max 0 (turchin_instability_score indicators deltas forecasts)))
  { status :=
      if final_score ≥ 0.5 then "critical"
      else if final_score ≥ 0.35 then "alert"
      else "stable"
    valor := final_score }

/-!
## Propagation-pass instability and border pressure, from main_generar_json.py
-/

/-- The propagation-pass weights dict, main_generar_json.py lines 244 to 251,
with border pressure as an additional weighted term. -/
def main_turchin_weights : List (String × ℚ) :=
  [("youth_unemployment", 0.25),
   ("gini_coefficient", 0.25),
   ("elite_overproduction", 0.2),
   ("social_polarization", 0.15),
   ("institutional_distrust", 0.15),
   ("border_pressure", 0.1)]

/-- The unclamped propagation-pass instability sum, main_generar_json.py
lines 234 to 253: six factor values times their weights, with absent
indicators defaulting to 0; no clamping is applied. -/
def main_instability_score (indicators : List (String × ℚ)) (border_pressure : ℚ) : ℚ :=
  dictGet indicators "youth_unemployment" 0 / 100 * 0.25
  + dictGet indicators "gini_coefficient" 0 / 100 * 0.25
  + dictGet indicators "elite_overproduction" 0 * 0.2
  + dictGet indicators "social_polarization" 0 * 0.15
  + dictGet indicators "institutional_distrust" 0 * 0.15
  + border_pressure * 0.1

/-- Propagation-pass instability, main_generar_json.py lines 231 to 266: the
status branches test the unrounded score, at_risk before fragile, and the
returned value is the rounded but unclamped score. -/
def main_calculate_turchin_instability (indicators : List (String × ℚ))
    (border_pressure : ℚ) : TurchinResult :=
  let s := main_instability_score indicators border_pressure
  { status :=
      if s > 0.4 then "at_risk"
      else if s > 0.6 then "fragile"
      else "stable"
    valor := round2 s }

/-- The static adjacency table, main_generar_json.py lines 149 to 200,
mapping each entity to its listed neighbors. -/
def border_mapping : List (String × List String) :=
  [("USA", ["CAN", "MEX"]),
   ("CAN", ["USA"]),
   ("MEX", ["USA", "GTM", "BLZ"]),
   ("RUS", ["CHN", "UKR", "FIN", "NOR", "POL", "LTU", "LVA", "EST", "BLR", "GEO", "AZE", "KAZ", "MNG", "PRK"]),
   ("CHN", ["RUS", "IND", "KOR", "VNM", "MYS", "PAK", "IDN"]),
   ("IND", ["CHN", "PAK", "NPL", "BTN", "MMR", "BGD"]),
   ("BRA", ["ARG", "COL", "VEN", "PER", "BOL", "PRY", "URY"]),
   ("UKR", ["RUS", "POL", "ROU", "SVK", "HUN", "MDA", "BLR"]),
   ("DEU", ["FRA", "POL", "CZE", "AUT", "CHE", "LUX", "BEL", "NLD", "DNK"]),
   ("FRA", ["DEU", "ESP", "ITA", "CHE", "LUX", "BEL"]),
   ("ESP", ["FRA", "PRT"]),
   ("ITA", ["FRA", "CHE", "AUT", "SVN", "HRV"]),
   ("GBR", ["IRL"]),
   ("JPN", []),
   ("KOR", ["PRK", "CHN"]),
   ("TUR", ["SYR", "IRQ", "IRN", "ARM", "GEO", "GRC", "BGR"]),
   ("IRN", ["TUR", "IRQ", "PAK", "AFG", "TKM", "ARM", "AZE"]),
   ("IDN", ["MYS", "TLS", "PNG"]),
   ("EGY", ["ISR", "SDN", "LBY"]),
   ("NGA", ["BEN", "NER", "CMR", "TCD"]),
   ("PAK", ["IND", "IRN", "AFG", "CHN"]),
   ("VNM", ["CHN", "LAO", "KHM"]),
   ("PHL", []),
   ("ARG", ["BRA", "CHL", "BOL", "PRY", "URY"]),
   ("COL", ["BRA", "VEN", "ECU", "PAN", "PER"]),
   ("POL", ["DEU", "CZE", "SVK", "UKR", "BLR", "RUS", "LTU"]),
   ("ZAF", ["NAM", "BWA", "ZWE", "MOZ", "SWZ", "LSO"]),
   ("THA", ["LAO", "MMR", "KHM", "MYS"]),
   ("VEN", ["BRA", "COL", "GUY"]),
   ("CHL", ["ARG", "BOL", "PER"]),
   ("PER", ["BRA", "COL", "ECU", "BOL", "CHL"]),
   ("MYS", ["THA", "IDN", "SGP"]),
   ("ROU", ["BGR", "SRB", "HUN", "UKR", "MDA"]),
   ("SWE", ["NOR", "FIN"]),
   ("BEL", ["FRA", "DEU", "NLD", "LUX"]),
   ("NLD", ["BEL", "DEU"]),
   ("GRC", ["ALB", "MKD", "BGR", "TUR"]),
   ("CZE", ["DEU", "POL", "AUT", "SVK"]),
   ("PRT", ["ESP"]),
   ("DNK", ["DEU"]),
   ("FIN", ["SWE", "NOR", "RUS"]),
   ("NOR", ["SWE", "FIN", "RUS"]),
   ("SGP", ["Singapore", "SG"]),
   ("AUT", ["DEU", "CHE", "ITA", "SVN", "HRV", "HUN", "SVK", "CZE"]),
   ("CHE", ["DEU", "FRA", "ITA", "AUT"]),
   ("IRL", ["GBR"]),
   ("NZL", []),
   ("HKG", ["CHN"]),
   ("ISR", ["EGY", "JOR", "SYR", "LBN"]),
   ("ARE", ["OMN", "SAU"])]

/-- Border pressure, main_generar_json.py lines 268 to 287. The first-pass
results are modelled as a map from entity to its first-pass instability
value; an absent entity models a neighbor with no first-pass result, which
the loop skips while its slot still counts in the final division. Each
available neighbor contributes twenty percent of its instability, and the
total is divided by the number of listed neighbors. -/
def calculate_border_pressure (all_country_results : List (String × ℚ))
    (country : String) : ℚ :=
  let borders := dictGet border_mapping country []
  if borders.isEmpty then 0
  else
    qsum (borders.map (fun n =>
      match findPair all_country_results n with
      | none => 0
      | some v => v * 0.2)) / borders.length

/-!
## Cache freshness, from generar_json.py

Every freshness test in the source has the shape
(datetime.now() - datetime.fromisoformat(timestamp)).days < window, with a
window of 7 days for World Bank indicator entries, line 283, of 1 day for
GDELT shock entries, line 422, and of 30 days for the fragility index entry,
line 472. Timestamps are modelled in seconds; the days field of a Python
timedelta is the floor of the signed difference divided by 86400.
-/

/-- The days field of a Python timedelta built from a difference in seconds:
floor division. -/
def timedeltaDays (seconds : ℤ) : ℤ := Int.fdiv seconds 86400

/-- Freshness of a cached World Bank entry, generar_json.py line 283. -/
def wb_cache_fresh (retrieved now : ℤ) : Bool := timedeltaDays (now - retrieved) < 7

/-- Freshness of a cached GDELT shock entry, generar_json.py line 422. -/
def gdelt_cache_fresh (retrieved now : ℤ) : Bool := timedeltaDays (now - retrieved) < 1

/-- Freshness of the cached fragility index, generar_json.py line 472. -/
def fsi_cache_fresh (retrieved now : ℤ) : Bool := timedeltaDays (now - retrieved) < 30

/-- Frequency classes of the freshness policy stated by the spec. -/
inductive FrequencyClass
  | static
  | annual
  | weekly
  deriving DecidableEq

/-- Modelled from the spec, for comparison with the source behavior: the
claimed per-frequency-class policy, in which an annual entry stays fresh
until the calendar year changes, a weekly entry is fresh for exactly 7 days,
and a static entry is never auto-refreshed. -/
def spec_cache_fresh (fc : FrequencyClass) (retrievedYear nowYear elapsedDays : ℤ) :
    Bool :=
  match fc with
  | .static => true
  | .annual => retrievedYear = nowYear
  | .weekly => elapsedDays < 7

/-!
## Default value table and its lookup, from generar_json.py
-/

/-- Split a character list at every dot. -/
def splitOnDot : List Char → List Char → List (List Char)
  | acc, [] => [acc.reverse]
  | acc, c :: cs =>
    if c = '.' then acc.reverse :: splitOnDot [] cs else splitOnDot (c :: acc) cs

/-- The last dot-separated segment of a string, mirroring the Python
expression code.split(".")[-1] used at generar_json.py lines 327 and 338. -/
def lastDotSegment (s : String) : String := String.mk (lastD s.data (splitOnDot [] s.data))

/-- The default value table, generar_json.py lines 175 to 184: per table key,
entity-specific defaults plus a global default. -/
def default_indicator_values : List (String × List (String × ℚ)) :=
  [("GINI", [("default", 40.0), ("CHN", 38.0), ("RUS", 36.0)]),
   ("1524.ZS", [("default", 20.0), ("CHN", 15.0), ("RUS", 16.0)]),
   ("TOTL.ZG", [("default", 5.0), ("CHN", 2.5), ("RUS", 6.0)]),
   ("NEET.ZS", [("default", 12.0), ("CHN", 10.0), ("RUS", 11.0)]),
   ("CUAT.BA.ZS", [("default", 18.0), ("CHN", 25.0), ("RUS", 30.0)]),
   ("PCAP.CD", [("default", 1000.0), ("CHN", 12500.0), ("RUS", 10000.0)]),
   ("SUIC.P5", [("default", 10.0), ("CHN", 8.0), ("RUS", 12.0)]),
   ("EST", [("default", 0.0), ("CHN", 0.5), ("RUS", -0.2)])]

/-- The fallback value computed when no provider data was obtained,
generar_json.py lines 327 to 328 and 338 to 339: the table row is selected
by the last dot-separated segment of the World Bank indicator code, then the
entity-specific entry is preferred over the global default, and a missing
row yields 0. -/
def wb_default_value (country indicator_code : String) : ℚ :=
  let tbl := (findPair default_indicator_values (lastDotSegment indicator_code)).getD []
  dictGet tbl country (dictGet tbl "default" 0)

/-- Series summary returned by fetch_world_bank_data. -/
structure WBData where
  historical : List (ℤ × ℚ)
  current : ℚ
  delta : ℚ
  variance : ℚ
  deriving Repr, DecidableEq

/-- The value returned by fetch_world_bank_data when the cache is cold and
every attempt fails or yields no valid data, generar_json.py lines 326 to 329
and 337 to 340: an empty series whose current value is the table fallback. -/
def fetch_world_bank_failure (country indicator_code : String) : WBData :=
  { historical := []
    current := wb_default_value country indicator_code
    delta := 0
    variance := 0 }

/-- The configured global default of a table row, as the spec reads the
table: the value stored under the default key of the row with that key. -/
def configured_global_default (tableKey : String) : Option ℚ :=
  (findPair default_indicator_values tableKey).bind (fun tbl => findPair tbl "default")

/-!
## Proxy indicators, from generar_json.py
-/

/-- Direct read of a global default from the table, mirroring an expression
of the shape default_indicator_values[key][subkey]. -/
def wb_table_default (tableKey : String) : ℚ :=
  dictGet ((findPair default_indicator_values tableKey).getD []) "default" 0

/-- Proxy computation, generar_json.py lines 515 to 530: returns the triple
of wealth concentration, education gap and elite overproduction. -/
def calculate_proxies (all_indicators : List (String × ℚ)) : ℚ × ℚ × ℚ :=
  let wealth_concentration :=
    dictGet all_indicators "gini_coefficient" (wb_table_default "GINI") / 100
  let tertiary_education :=
    dictGet all_indicators "tertiary_education" (wb_table_default "CUAT.BA.ZS") / 100
  let youth_unemployment :=
    dictGet all_indicators "youth_unemployment" (wb_table_default "1524.ZS") / 100
  let education_gap := tertiary_education * youth_unemployment
  let elite_overproduction := tertiary_education * youth_unemployment
  (wealth_concentration, education_gap, elite_overproduction)

/-!
## Stability index, from generar_json.py

calculate_jiang_stability, generar_json.py lines 601 to 717. The GDELT shock
factor and the fragility index table are produced by network calls in the
source and enter here as parameters, as does log1p. The returned indicator
and group status breakdowns of the source are omitted; status and value are
kept.
-/

/-- Per-indicator normalization of calculate_jiang_stability, generar_json.py
lines 610 to 615: percentage indicators divided by 100, already-bounded
indicators passed through, everything else divided by 10000; no clamping. -/
def jiang_norm (indicator : String) (value : ℚ) : ℚ :=
  if indicator ∈ ["gini_coefficient", "neet_ratio", "youth_unemployment",
      "inflation_annual", "suicide_rate"] then value / 100
  else if indicator ∈ ["social_polarization", "institutional_distrust",
      "wealth_concentration", "education_gap", "elite_overproduction"] then value
  else value / 10000

/-- Read of the normalized-values dict with default 0.5, generar_json.py
lines 651 and 663, valid for the threshold and group keys, none of which is
one of the two non-numeric keys excluded at line 603. -/
def jiangNormGet (indicators : List (String × ℚ)) (k : String) : ℚ :=
  match findPair indicators k with
  | none => 0.5
  | some v => jiang_norm k v

/-- The threshold table, generar_json.py lines 188 to 201: for each
indicator its alert cutoff, critical cutoff, alert points and critical
points. -/
def thresholds : List (String × ℚ × ℚ × ℚ × ℚ) :=
  [("neet_ratio", 20.0, 25.0, -1.5, -2.5),
   ("gini_coefficient", 40.0, 45.0, -1.5, -3.0),
   ("youth_unemployment", 25.0, 30.0, -1.0, -2.0),
   ("inflation_annual", 10.0, 15.0, -1.0, -2.0),
   ("social_polarization", 0.60, 0.75, -1.5, -3.0),
   ("institutional_distrust", 0.60, 0.75, -1.5, -3.0),
   ("suicide_rate", 10.0, 15.0, -1.0, -2.0),
   ("wealth_concentration", 0.45, 0.55, -1.5, -3.0),
   ("education_gap", 0.05, 0.1, -1.0, -2.5),
   ("elite_overproduction", 0.05, 0.1, -1.5, -3.0),
   ("estabilidad_jiang", 5.0, 4.0, 0.0, 0.0),
   ("inestabilidad_turchin", 0.35, 0.5, 0.0, 0.0)]

/-- One threshold-crossing penalty, generar_json.py lines 648 to 659: an
indicator absent from the input dict is skipped, otherwise its normalized
value is compared against the critical and alert cutoffs and the absolute
point value of the first crossing is added. -/
def jiangRiskTerm (indicators : List (String × ℚ)) (e : String × ℚ × ℚ × ℚ × ℚ) : ℚ :=
  match findPair indicators e.1 with
  | none => 0
  | some v =>
    let nv := jiang_norm e.1 v
    if nv ≥ e.2.2.1 then |e.2.2.2.2|
    else if nv ≥ e.2.1 then |e.2.2.2.1|
    else 0

/-- Sum of the threshold-crossing penalties over the threshold table. -/
def jiang_threshold_risk (indicators : List (String × ℚ)) : ℚ :=
  qsum (thresholds.map (jiangRiskTerm indicators))

/-- Mean normalized value of one indicator group, generar_json.py line 663,
with 0.5 for members absent from the input dict. -/
def jiang_group_score (indicators : List (String × ℚ)) (members : List String) : ℚ :=
  qsum (members.map (jiangNormGet indicators)) / members.length

/-- Weighted sum of the three group means, generar_json.py lines 620 to 625
and 661 to 665: economic 0.4, social 0.35, demographic 0.25. -/
def jiang_group_risk (indicators : List (String × ℚ)) : ℚ :=
  jiang_group_score indicators
      ["gini_coefficient", "inflation_annual", "gdppc", "wealth_concentration"] * 0.4
  + jiang_group_score indicators
      ["social_polarization", "institutional_distrust", "suicide_rate"] * 0.35
  + jiang_group_score indicators
      ["youth_unemployment", "neet_ratio", "education_gap", "elite_overproduction"] * 0.25

/-- The crisis forecast table, generar_json.py line 211. -/
def crisis_forecasts : List (String × ℚ) :=
  [("SDN", 0.4), ("MMR", 0.3), ("YEM", 0.35), ("SYR", 0.3),
   ("UKR", 0.25), ("HTI", 0.2), ("LBN", 0.25)]

/-- Geopolitical fragility addend, generar_json.py lines 670 to 677: only
entities present in the fragility table get a tiered addend plus their crisis
forecast, capped at 0.7. -/
def jiang_geo_risk (high_risk : List (String × ℚ)) (country : String) : ℚ :=
  match findPair high_risk country with
  | none => 0
  | some score =>
    min 0.7 ((if score > 100 then 0.5 else if score > 90 then 0.3 else 0)
      + dictGet crisis_forecasts country 0)

/-- One term of the delta penalty, generar_json.py lines 680 to 687: a
missing delta is skipped and only positive deltas contribute, scaled
by 0.1. -/
def jiangDeltaTerm (deltas : List (String × ℚ)) (k : String) : ℚ :=
  match findPair deltas k with
  | none => 0
  | some d => if d > 0 then d * 0.1 else 0

/-- The delta penalty over its four selected indicators. -/
def jiang_delta_penalty (deltas : List (String × ℚ)) : ℚ :=
  jiangDeltaTerm deltas "gini_coefficient"
  + jiangDeltaTerm deltas "youth_unemployment"
  + jiangDeltaTerm deltas "neet_ratio"
  + jiangDeltaTerm deltas "inflation_annual"

/-- The forecast penalty, generar_json.py lines 689 to 697, over its four
selected indicators; each term has the same shape as in the first-pass
instability computation. -/
def jiang_forecast_penalty (indicators forecasts : List (String × ℚ)) : ℚ :=
  turchinForecastTerm indicators forecasts "gini_coefficient"
  + turchinForecastTerm indicators forecasts "youth_unemployment"
  + turchinForecastTerm indicators forecasts "neet_ratio"
  + turchinForecastTerm indicators forecasts "inflation_annual"

/-- The base score, generar_json.py lines 627 to 644: 6.0, raised by a
capped log transform of GDP per capita and by half the governance
effectiveness score, clamped to the 1 to 10 band. -/
def jiang_base_score (lg : ℚ → ℚ) (indicators : List (String × ℚ)) (country : String) : ℚ :=
  let pcapTbl := (findPair default_indicator_values "PCAP.CD").getD []
  let gdppc := dictGet indicators "gdppc" (dictGet pcapTbl country (dictGet pcapTbl "default" 0))
  let estTbl := (findPair default_indicator_values "EST").getD []
  let gov := dictGet indicators "government_effectiveness"
    (dictGet estTbl country (dictGet estTbl "default" 0))
  min 10 (max 1 (6 + min 4 (lg gdppc / 10) + gov * 0.5))

/-- The accumulated systemic risk score, generar_json.py lines 646 to 697:
threshold penalties plus weighted group means, multiplied by the shock
factor, plus the geopolitical addend weighted 0.15, plus the delta and
forecast penalties. -/
def jiang_systemic_risk (indicators deltas forecasts : List (String × ℚ))
    (shock_factor : ℚ) (high_risk : List (String × ℚ)) (country : String) : ℚ :=
  (jiang_threshold_risk indicators + jiang_group_risk indicators) * shock_factor
  + jiang_geo_risk high_risk country * 0.15
  + jiang_delta_penalty deltas
  + jiang_forecast_penalty indicators forecasts

/-- Result record of the stability computation. -/
structure JiangResult where
  status : String
  valor : ℚ
  deriving Repr, DecidableEq

/-- The stability index, generar_json.py lines 699 to 717: the systemic
multiplier is 1.5 minus the risk score clamped to the band 0.5 to 1.5, the
final score is the base score times the multiplier clamped to the band 1
to 10 and rounded, and the status tiers are critical at or below 4 and
alert at or below 5. -/
def calculate_jiang_stability (lg : ℚ → ℚ) (indicators deltas forecasts : List (String × ℚ))
    (country : String) (shock_factor : ℚ) (high_risk : List (String × ℚ)) : JiangResult :=
  let base_score := jiang_base_score lg indicators country
  let risk := jiang_systemic_risk indicators deltas forecasts shock_factor high_risk country
  let systemic_multiplier := max 0.5 (min 1.5 (1.5 - risk * 1.0))
  let final_score := round2 (max 1 (min 10 (base_score * systemic_multiplier)))
  { status :=
      if final_score ≤ 4 then "critical"
      else if final_score ≤ 5 then "alert"
      else "stable"
    valor := final_score }

/-!
## Forecasting chain, from generar_json.py

forecast_indicator, generar_json.py lines 342 to 416. The historical series
is an association list from year to value in dict insertion order; the year
keys are integers by construction, so the non-integer-key early return at
lines 351 to 353 is unreachable in the model. The ARIMA fits and the
exponential smoothing fit are oracles: none models a fit that raises, and a
successful ARIMA fit yields the forecast series whose combination with the
transformed values the source performs afterwards.
-/

/-- Outcomes of the model-fitting stages of one forecast call. -/
structure ForecastOracle where
  arima : ℕ × ℕ × ℕ → Option (List ℚ)
  smoothing : Option ℚ

/-- The ARIMA orders tried in sequence, generar_json.py line 384. -/
def arima_orders : List (ℕ × ℕ × ℕ) := [(1, 0, 0), (0, 0, 0)]

/-- The sorted year keys of a series, generar_json.py line 347. -/
def sortedYears (historical : List (ℤ × ℚ)) : List ℤ :=
  sortInts (historical.map Prod.fst)

/-- The series values listed in sorted-year order, generar_json.py
line 355. -/
def sortedValues (historical : List (ℤ × ℚ)) : List ℚ :=
  (sortedYears historical).filterMap (findPair historical)

/-- Largest element of a list of rationals, mirroring the Python max
builtin on a nonempty list. -/
def listMax : List ℚ → ℚ
  | [] => 0
  | x :: xs => xs.foldl max x

/-- Smallest element of a list of rationals, mirroring the Python min
builtin on a nonempty list. -/
def listMin : List ℚ → ℚ
  | [] => 0
  | x :: xs => xs.foldl min x

/-- The moving average taken by the last stage: the mean of the last
window of the log-transformed values, generar_json.py lines 412 to 414. -/
def movingAvg (window : ℕ) (tvalues : List ℚ) : ℚ := listMean (lastN window tvalues)

/-- The model stages of the chain, generar_json.py lines 383 to 416: the
ARIMA orders are tried in sequence and the first successful fit is combined
and returned; on failure of both, exponential smoothing; on its failure,
the moving average of the last min(3, n) transformed values; the final 0.0
return is reachable only for an empty window. The flag lt8 records whether
the series was left undifferenced, lines 372 to 381, which decides how a
successful ARIMA forecast is combined at lines 390 to 395. -/
def forecastModelStages (ex : ℚ → ℚ) (tvalues : List ℚ) (lt8 : Bool)
    (oracle : ForecastOracle) : ℚ :=
  match arima_orders.findSome? oracle.arima with
  | some forecast_diff =>
    if lt8 then ex (lastD 0 forecast_diff)
    else ex (lastD 0 tvalues + qsum forecast_diff)
  | none =>
    match oracle.smoothing with
    | some s => ex s
    | none =>
      let window := min 3 tvalues.length
      if 0 < window then ex (movingAvg window tvalues) else 0

/-- The post-guard part of the chain, generar_json.py lines 371 to 416:
below 8 points the log-transformed values are used undifferenced; from 8
points on they are first-order differenced, with an early return of the
last transformed value should the differenced series be shorter than 2,
lines 377 to 379; either way the model stages follow. -/
def forecastTransformed (ex : ℚ → ℚ) (tvalues : List ℚ) (oracle : ForecastOracle) : ℚ :=
  if tvalues.length < 8 then
    forecastModelStages ex tvalues true oracle
  else if (listDiff tvalues).length < 2 then
    match tvalues with
    | [] => 0
    | _ => ex (lastD 0 tvalues)
  else
    forecastModelStages ex tvalues false oracle

/-- The guarded part of the chain, generar_json.py lines 347 to 416: the
gap, outlier and low-variance guards return the last value in sorted-year
order, and otherwise the log-transformed values are handed on. -/
def forecastCore (sqrtQ lg ex : ℚ → ℚ) (historical : List (ℤ × ℚ))
    (oracle : ForecastOracle) : ℚ :=
  if ((lastD 0 (sortedYears historical) - (sortedYears historical).headD 0 + 1 : ℤ) : ℚ)
      > ((sortedYears historical).length : ℚ) * 1.5 then
    lastD 0 (sortedValues historical)
  else if (listDiff (sortedValues historical)).any
      (fun d => |d| > sqrtQ (listVar (sortedValues historical)) * 3) then
    lastD 0 (sortedValues historical)
  else if listVar (sortedValues historical) < 1 / 10000
      ∨ sqrtQ (listVar (sortedValues historical)) < 1 / 1000
      ∨ listMax (sortedValues historical) - listMin (sortedValues historical) < 1 / 100 then
    lastD 0 (sortedValues historical)
  else
    forecastTransformed ex ((sortedValues historical).map fun v => lg (max 0 v)) oracle

/-- The forecasting chain, generar_json.py lines 342 to 416: the
insufficient-data guard returns the last stored value of a series under 7
points, 0.0 for an empty one, and otherwise hands over to the guarded
chain. -/
def forecast_indicator (sqrtQ lg ex : ℚ → ℚ) (historical : List (ℤ × ℚ))
    (oracle : ForecastOracle) : ℚ :=
  if historical.length < 7 then
    match historical with
    | [] => 0
    | p :: ps => (lastD p (p :: ps)).2
  else
    forecastCore sqrtQ lg ex historical oracle

/-!
## Theorems
-/

theorem round2_bounds {a b x : ℚ} (ha : a ≤ x) (hb : x ≤ b)
    (haInt : (⌊a * 100 + 1 / 2⌋ : ℚ) = a * 100)
    (hbInt : (⌊b * 100 + 1 / 2⌋ : ℚ) = b * 100) :
    a ≤ round2 x ∧ round2 x ≤ b := by
  have h1 : (⌊a * 100 + 1 / 2⌋ : ℤ) ≤ ⌊x * 100 + 1 / 2⌋ := Int.floor_le_floor (by linarith)
  have h2 : (⌊x * 100 + 1 / 2⌋ : ℤ) ≤ ⌊b * 100 + 1 / 2⌋ := Int.floor_le_floor (by linarith)
  have h1q : (⌊a * 100 + 1 / 2⌋ : ℚ) ≤ (⌊x * 100 + 1 / 2⌋ : ℚ) := by exact_mod_cast h1
  have h2q : (⌊x * 100 + 1 / 2⌋ : ℚ) ≤ (⌊b * 100 + 1 / 2⌋ : ℚ) := by exact_mod_cast h2
  rw [haInt] at h1q
  rw [hbInt] at h2q
  unfold round2
  exact ⟨by linarith, by linarith⟩

/-- C7 counterexample: the propagation-pass weights dict, border pressure
included, sums to 1.1 and not to 1.0. -/
theorem main_weights_do_not_sum_to_one :
    qsum (main_turchin_weights.map Prod.snd) = 1.1 ∧ (1.1 : ℚ) ≠ 1 := by
  constructor
  · simp [main_turchin_weights, qsum]
    norm_num
  · norm_num

/-- C7 amended: the first-pass weights sum to 1.0; in the propagation pass
the five indicator weights alone sum to 1.0 while border pressure carries
the additional fixed weight 0.1, so the full propagation-pass weight set
sums to 1.1. -/
theorem instability_weight_sums :
    qsum (turchin_weights.map Prod.snd) = 1
    ∧ qsum ((main_turchin_weights.filter (fun p => p.1 ≠ "border_pressure")).map Prod.snd) = 1
    ∧ qsum (main_turchin_weights.map Prod.snd) = 1.1
    ∧ dictGet main_turchin_weights "border_pressure" 0 = 0.1 := by
  refine ⟨?_, ?_, ?_, ?_⟩ <;>
    · simp [turchin_weights, main_turchin_weights, qsum, dictGet, findPair]
      try norm_num

/-- C2 counterexample: the normalization used by the stability computation
does not clamp: GDP per capita 50000 normalizes to 5, outside the unit
interval. -/
theorem jiang_norm_escapes_unit_interval :
    jiang_norm "gdppc" 50000 = 5 ∧ ¬ jiang_norm "gdppc" 50000 ≤ 1 := by
  constructor <;>
    · simp [jiang_norm]
      norm_num

/-- C2 amended: the first-pass normalization is a total function that clamps
above at 1.0 only; its value is never above 1 and is nonnegative exactly
when fed a nonnegative raw value, so it lies in the unit interval only for
nonnegative inputs; the stability-side normalization applies unclamped
linear scalings. -/
theorem turchin_norm_clamped_above_only (indicator : String) (value : ℚ) :
    turchin_norm indicator value ≤ 1
    ∧ (0 ≤ value → 0 ≤ turchin_norm indicator value) := by
  unfold turchin_norm
  refine ⟨?_, fun hv => ?_⟩
  · split
    · exact min_le_left _ _
    · split
      · exact min_le_left _ _
      · split
        · exact min_le_left _ _
        · exact min_le_left _ _
  · split
    · exact le_min (by norm_num) (by positivity)
    · split
      · exact le_min (by norm_num) (by positivity)
      · split
        · exact le_min (by norm_num) hv
        · exact le_min (by norm_num) (by positivity)

theorem turchin_norm_clamped_above_only_witness :
    turchin_norm "youth_unemployment" 50 ≤ 1
    ∧ 0 ≤ turchin_norm "youth_unemployment" 50 :=
  ⟨(turchin_norm_clamped_above_only "youth_unemployment" 50).1,
   (turchin_norm_clamped_above_only "youth_unemployment" 50).2 (by norm_num)⟩

/-- C3: with a cold cache and every fetch attempt failed, the resolution of
youth unemployment for the USA returns current value 0, although the table
row keyed 1524.ZS configures the global default 20; the lookup key actually
used is the last dot segment ZS of the World Bank code, which misses the
row. -/
theorem wb_default_lookup_misses_table :
    (fetch_world_bank_failure "USA" "SL.UEM.1524.ZS").current = 0
    ∧ configured_global_default "1524.ZS" = some 20
    ∧ lastDotSegment "SL.UEM.1524.ZS" = "ZS" := by
  refine ⟨?_, ?_, ?_⟩
  · simp [fetch_world_bank_failure, wb_default_value, lastDotSegment, splitOnDot, lastD,
      default_indicator_values, dictGet, findPair]
  · simp [configured_global_default, default_indicator_values, findPair]
    norm_num
  · decide

/-- C5 counterexample: for the entity USA with listed neighbors CAN and MEX
holding first-pass instability 0.8 and 0.4, the computed border pressure is
0.12 and not the arithmetic mean 0.6. -/
theorem border_pressure_is_not_neighbor_mean :
    calculate_border_pressure [("CAN", 0.8), ("MEX", 0.4)] "USA" = 0.12
    ∧ (0.12 : ℚ) ≠ 0.6 := by
  constructor
  · simp [calculate_border_pressure, border_mapping, dictGet, findPair, qsum]
    norm_num
  · norm_num

theorem optionMatchMul (o : Option ℚ) :
    (match o with | none => 0 | some v => v * (0.2 : ℚ)) = o.getD 0 * 0.2 := by
  cases o <;> simp

theorem qsum_map_mul {α : Type} (f : α → ℚ) (c : ℚ) (l : List α) :
    qsum (l.map fun x => f x * c) = qsum (l.map f) * c := by
  induction l with
  | nil => simp [qsum]
  | cons a t ih => simp [qsum, List.map_cons] at ih ⊢; rw [ih]; ring

/-- C5 amended: border pressure is zero for an entity with no listed
neighbors, and otherwise equals 0.2 times the sum of the first-pass
instability values of those neighbors that have a result, divided by the
number of listed neighbors; a neighbor without a result contributes zero to
the sum yet still counts in the denominator. -/
theorem border_pressure_formula (results : List (String × ℚ)) (country : String) :
    (dictGet border_mapping country [] = [] → calculate_border_pressure results country = 0)
    ∧ calculate_border_pressure results country
      = 0.2 * qsum ((dictGet border_mapping country []).map
          (fun n => (findPair results n).getD 0)) / (dictGet border_mapping country []).length := by
  constructor
  · intro hb
    simp [calculate_border_pressure, hb]
  · unfold calculate_border_pressure
    rcases hb : dictGet border_mapping country [] with _ | ⟨n, t⟩
    · simp [qsum]
    · have hmap : ((n :: t).map (fun m =>
          match findPair results m with
          | none => 0
          | some v => v * (0.2 : ℚ)))
          = ((n :: t).map fun m => (findPair results m).getD 0 * 0.2) := by
        apply List.map_congr_left
        intro m _
        exact optionMatchMul (findPair results m)
      simp only [List.isEmpty_cons, if_false, Bool.false_eq_true]
      rw [hmap, qsum_map_mul]
      ring

theorem border_pressure_formula_witness :
    calculate_border_pressure [] "JPN" = 0 :=
  (border_pressure_formula [] "JPN").1 (by simp [border_mapping, dictGet, findPair])

/-- C8 counterexample: a cached World Bank entry whose elapsed age is 8 days
is refreshed by the source regardless of frequency class, although the
claimed policy declares a static entry never auto-refreshed; the retrieval
and check moments lie in the same calendar year. -/
theorem static_entry_is_refreshed :
    spec_cache_fresh .static 2026 2026 8 = true ∧ wb_cache_fresh 0 (8 * 86400) = false := by
  decide

/-- C8 amended: cache freshness ignores the frequency class and applies a
fixed elapsed-days window per cache key kind: under 7 days for World Bank
indicator entries, under 1 day for GDELT shock entries and under 30 days
for the fragility index entry; the weekly behavior of the claim holds for
World Bank entries, while annual entries get no calendar-year rule and
static entries are refreshed like any other. -/
theorem cache_freshness_fixed_windows (retrieved now : ℤ) :
    (wb_cache_fresh retrieved now = true ↔ now - retrieved < 7 * 86400)
    ∧ (gdelt_cache_fresh retrieved now = true ↔ now - retrieved < 86400)
    ∧ (fsi_cache_fresh retrieved now = true ↔ now - retrieved < 30 * 86400) := by
  unfold wb_cache_fresh gdelt_cache_fresh fsi_cache_fresh timedeltaDays
  rw [Int.fdiv_eq_ediv _ (by norm_num)]
  simp only [decide_eq_true_eq]
  refine ⟨by omega, by omega, by omega⟩

/-- C9: for every indicator map, the proxy computation returns the education
gap and the elite overproduction proxy as one and the same value, namely
tertiary education over 100 times youth unemployment over 100, with the
table defaults 18 and 20 for absent inputs. -/
theorem education_gap_equals_elite_overproduction (m : List (String × ℚ)) :
    (calculate_proxies m).2.1 = (calculate_proxies m).2.2
    ∧ (calculate_proxies m).2.1
      = dictGet m "tertiary_education" 18 / 100 * (dictGet m "youth_unemployment" 20 / 100) := by
  constructor
  · rfl
  · simp [calculate_proxies, wb_table_default, default_indicator_values, dictGet, findPair]
    norm_num

/-- C10: the status returned by the propagation-pass instability
recomputation is never fragile: a score strictly above 0.4 is classified
at risk, since that branch is tested before the fragile branch, and every
other score is classified stable. -/
theorem final_status_never_fragile (ind : List (String × ℚ)) (bp : ℚ) :
    (main_calculate_turchin_instability ind bp).status ≠ "fragile"
    ∧ (0.4 < main_instability_score ind bp →
        (main_calculate_turchin_instability ind bp).status = "at_risk")
    ∧ (main_instability_score ind bp ≤ 0.4 →
        (main_calculate_turchin_instability ind bp).status = "stable") := by
  unfold main_calculate_turchin_instability
  by_cases h : main_instability_score ind bp > 0.4
  · refine ⟨?_, fun _ => ?_, fun hle => absurd h (not_lt.mpr hle)⟩ <;> simp [h]
  · have h6 : ¬ main_instability_score ind bp > 0.6 := fun hh =>
      h (lt_trans (by norm_num) hh)
    refine ⟨?_, fun hlt => absurd hlt h, fun _ => ?_⟩ <;> simp [h, h6]

theorem final_status_never_fragile_witness :
    (main_calculate_turchin_instability [("social_polarization", 100)] 0).status = "at_risk"
    ∧ (main_calculate_turchin_instability [] 0).status = "stable" :=
  ⟨(final_status_never_fragile [("social_polarization", 100)] 0).2.1 (by
      simp [main_instability_score, dictGet, findPair]
      norm_num),
   (final_status_never_fragile [] 0).2.2 (by
      simp [main_instability_score, dictGet, findPair]
      norm_num)⟩

/-- C4 counterexample: with every factor of the propagation-pass formula at
its natural upper bound, the recomputed final instability value is 1.1,
outside the documented unit interval, because the recomputation never
clamps. -/
theorem final_instability_exceeds_documented_range :
    (main_calculate_turchin_instability
      [("youth_unemployment", 100), ("gini_coefficient", 100), ("elite_overproduction", 1),
       ("social_polarization", 1), ("institutional_distrust", 1)] 1).valor = 1.1
    ∧ ¬ ((1.1 : ℚ) ≤ 1) := by
  constructor
  · simp [main_calculate_turchin_instability, main_instability_score, round2, dictGet, findPair]
    norm_num
  · norm_num

/-- C4 amended: the stability value equals the round to two decimals of
clamp of base score times clamp of 1.5 minus the systemic risk score to the
band 0.5 to 1.5, to the band 1 to 10, and so lies in the band 1 to 10; the
first-pass instability value lies in the unit interval; the propagation-pass
recomputation is unclamped, and with every factor in its natural range its
value lies in the band 0 to 1.1, the weight total, rather than in the unit
interval. -/
theorem composite_score_ranges
    (lg : ℚ → ℚ) (indicators deltas forecasts : List (String × ℚ)) (country : String)
    (shock_factor : ℚ) (high_risk : List (String × ℚ))
    (ind2 : List (String × ℚ)) (bp : ℚ) :
    (1 ≤ (calculate_jiang_stability lg indicators deltas forecasts country shock_factor high_risk).valor
      ∧ (calculate_jiang_stability lg indicators deltas forecasts country shock_factor high_risk).valor ≤ 10)
    ∧ (calculate_jiang_stability lg indicators deltas forecasts country shock_factor high_risk).valor
      = round2 (max 1 (min 10 (jiang_base_score lg indicators country
          * max 0.5 (min 1.5 (1.5 - jiang_systemic_risk indicators deltas forecasts
              shock_factor high_risk country)))))
    ∧ (0 ≤ (calculate_turchin_instability indicators deltas forecasts).valor
      ∧ (calculate_turchin_instability indicators deltas forecasts).valor ≤ 1)
    ∧ ((0 ≤ dictGet ind2 "youth_unemployment" 0 ∧ dictGet ind2 "youth_unemployment" 0 ≤ 100
        ∧ 0 ≤ dictGet ind2 "gini_coefficient" 0 ∧ dictGet ind2 "gini_coefficient" 0 ≤ 100
        ∧ 0 ≤ dictGet ind2 "elite_overproduction" 0 ∧ dictGet ind2 "elite_overproduction" 0 ≤ 1
        ∧ 0 ≤ dictGet ind2 "social_polarization" 0 ∧ dictGet ind2 "social_polarization" 0 ≤ 1
        ∧ 0 ≤ dictGet ind2 "institutional_distrust" 0 ∧ dictGet ind2 "institutional_distrust" 0 ≤ 1
        ∧ 0 ≤ bp ∧ bp ≤ 1) →
      (0 ≤ (main_calculate_turchin_instability ind2 bp).valor
        ∧ (main_calculate_turchin_instability ind2 bp).valor ≤ 1.1)) := by
  refine ⟨?_, ?_, ?_, ?_⟩
  · have hlow : (1 : ℚ) ≤ max 1 (min 10 (jiang_base_score lg indicators country
        * (max 0.5 (min 1.5 (1.5 - jiang_systemic_risk indicators deltas forecasts
            shock_factor high_risk country * 1.0))))) := le_max_left _ _
    have hhigh : max 1 (min 10 (jiang_base_score lg indicators country
        * (max 0.5 (min 1.5 (1.5 - jiang_systemic_risk indicators deltas forecasts
            shock_factor high_risk country * 1.0))))) ≤ 10 :=
      max_le (by norm_num) (min_le_left _ _)
    have := round2_bounds hlow hhigh (by norm_num) (by norm_num)
    simpa [calculate_jiang_stability] using this
  · have h10 : jiang_systemic_risk indicators deltas forecasts shock_factor high_risk country * 1.0
        = jiang_systemic_risk indicators deltas forecasts shock_factor high_risk country := by
      norm_num
    simp only [calculate_jiang_stability, h10]
  · have hlow : (0 : ℚ) ≤ min 1 (max 0 (turchin_instability_score indicators deltas forecasts)) :=
      le_min (by norm_num) (le_max_left _ _)
    have hhigh : min 1 (max 0 (turchin_instability_score indicators deltas forecasts)) ≤ 1 :=
      min_le_left _ _
    have := round2_bounds hlow hhigh (by norm_num) (by norm_num)
    simpa [calculate_turchin_instability] using this
  · rintro ⟨h1, h2, h3, h4, h5, h6, h7, h8, h9, h10, h11, h12⟩
    have hs1 : 0 ≤ main_instability_score ind2 bp := by
      unfold main_instability_score
      have : (0:ℚ) ≤ 100 := by norm_num
      nlinarith
    have hs2 : main_instability_score ind2 bp ≤ 1.1 := by
      unfold main_instability_score
      nlinarith
    have := round2_bounds hs1 hs2 (by norm_num) (by norm_num)
    simpa [main_calculate_turchin_instability] using this

theorem composite_score_ranges_witness :
    0 ≤ (main_calculate_turchin_instability [] 0).valor
    ∧ (main_calculate_turchin_instability [] 0).valor ≤ 1.1 :=
  (composite_score_ranges id [] [] [] "USA" 1 [] [] 0).2.2.2 (by
    simp [dictGet, findPair]
    try norm_num)

theorem lastD_mem {α : Type} (d : α) (l : List α) (h : l ≠ []) : lastD d l ∈ l := by
  induction l with
  | nil => exact absurd rfl h
  | cons a t ih =>
    cases t with
    | nil => simp [lastD]
    | cons b t2 =>
      have h2 := ih (by simp)
      simp only [lastD]
      exact List.mem_cons_of_mem a h2

theorem mem_insertSorted {x y : ℤ} {l : List ℤ} (h : x ∈ insertSorted y l) : x = y ∨ x ∈ l := by
  induction l with
  | nil =>
    rw [show insertSorted y [] = [y] from rfl] at h
    exact Or.inl (List.mem_singleton.mp h)
  | cons a t ih =>
    simp only [insertSorted] at h
    split at h
    · rcases List.mem_cons.mp h with h1 | h1
      · exact Or.inl h1
      · exact Or.inr h1
    · rcases List.mem_cons.mp h with h1 | h1
      · exact Or.inr (by simp [h1])
      · rcases ih h1 with h2 | h2
        · exact Or.inl h2
        · exact Or.inr (by simp [h2])

theorem mem_sortInts {x : ℤ} {l : List ℤ} (h : x ∈ sortInts l) : x ∈ l := by
  induction l with
  | nil => exact absurd h (by simp [sortInts])
  | cons a t ih =>
    have h2 : x ∈ insertSorted a (sortInts t) := h
    rcases mem_insertSorted h2 with h3 | h3
    · simp [h3]
    · exact List.mem_cons_of_mem a (ih h3)

theorem length_insertSorted (y : ℤ) (l : List ℤ) :
    (insertSorted y l).length = l.length + 1 := by
  induction l with
  | nil => rfl
  | cons a t ih =>
    simp only [insertSorted]
    split <;> simp [ih]

theorem length_sortInts (l : List ℤ) : (sortInts l).length = l.length := by
  induction l with
  | nil => rfl
  | cons a t ih =>
    rw [show sortInts (a :: t) = insertSorted a (sortInts t) from rfl,
      length_insertSorted, ih, List.length_cons]

theorem findPair_mem {α β : Type} [DecidableEq α] {l : List (α × β)} {k : α} {v : β}
    (h : findPair l k = some v) : (k, v) ∈ l := by
  induction l with
  | nil => simp [findPair] at h
  | cons p t ih =>
    simp only [findPair] at h
    split at h
    · rename_i heq
      have hv : p.2 = v := by injection h
      have hp : p = (k, v) := by
        cases p
        simp_all
      rw [← hp]
      exact List.mem_cons_self p t
    · exact List.mem_cons_of_mem p (ih h)

theorem findPair_isSome {α β : Type} [DecidableEq α] {l : List (α × β)} {k : α}
    (h : k ∈ l.map Prod.fst) : ∃ v, findPair l k = some v := by
  induction l with
  | nil => simp at h
  | cons p t ih =>
    by_cases hp : p.1 = k
    · exact ⟨p.2, by simp [findPair, hp]⟩
    · have h2 : k ∈ t.map Prod.fst := by
        rw [List.map_cons] at h
        rcases List.mem_cons.mp h with h3 | h3
        · exact absurd h3.symm hp
        · exact h3
      rcases ih h2 with ⟨v, hv⟩
      exact ⟨v, by simp [findPair, hp, hv]⟩

theorem sortedValues_mem {h : List (ℤ × ℚ)} {v : ℚ} (hv : v ∈ sortedValues h) :
    ∃ p ∈ h, p.2 = v := by
  unfold sortedValues at hv
  rcases List.mem_filterMap.mp hv with ⟨y, hy, hfy⟩
  exact ⟨(y, v), findPair_mem hfy, rfl⟩

theorem filterMap_length_all_some {α β : Type} (f : α → Option β) (l : List α)
    (h : ∀ x ∈ l, ∃ v, f x = some v) : (l.filterMap f).length = l.length := by
  induction l with
  | nil => rfl
  | cons a t ih =>
    rcases h a (by simp) with ⟨v, hv⟩
    rw [List.filterMap_cons, hv]
    simp [ih (fun x hx => h x (by simp [hx]))]

theorem sortedValues_length (h : List (ℤ × ℚ)) : (sortedValues h).length = h.length := by
  unfold sortedValues
  rw [filterMap_length_all_some]
  · unfold sortedYears
    rw [length_sortInts, List.length_map]
  · intro y hy
    exact findPair_isSome (mem_sortInts (by simpa [sortedYears] using hy))

theorem listDiff_length (l : List ℚ) : (listDiff l).length = l.length - 1 := by
  simp [listDiff, List.length_zipWith]

theorem forecastModelStages_is_ex (ex : ℚ → ℚ) (tvalues : List ℚ) (lt8 : Bool)
    (o : ForecastOracle) (hw : 0 < min 3 tvalues.length) :
    ∃ x, forecastModelStages ex tvalues lt8 o = ex x := by
  unfold forecastModelStages
  cases harima : arima_orders.findSome? o.arima with
  | some fd => cases lt8 <;> simp
  | none =>
    cases hs : o.smoothing with
    | some s => simp
    | none =>
      simp [hw]

theorem forecastModelStages_all_fail (ex : ℚ → ℚ) (tvalues : List ℚ) (lt8 : Bool)
    (o : ForecastOracle) (hA : ∀ ord, o.arima ord = none) (hS : o.smoothing = none)
    (hw : 0 < min 3 tvalues.length) :
    forecastModelStages ex tvalues lt8 o = ex (movingAvg (min 3 tvalues.length) tvalues) := by
  unfold forecastModelStages
  have hfs : arima_orders.findSome? o.arima = none := by
    simp [arima_orders, List.findSome?_cons, hA]
  rw [hfs, hS]
  simp [hw]

theorem forecastTransformed_is_ex (ex : ℚ → ℚ) (tvalues : List ℚ) (o : ForecastOracle)
    (hw : 0 < min 3 tvalues.length) :
    ∃ x, forecastTransformed ex tvalues o = ex x := by
  unfold forecastTransformed
  split_ifs with h1 h2
  · exact forecastModelStages_is_ex ex tvalues true o hw
  · cases tvalues with
    | nil => simp at hw
    | cons a t => exact ⟨_, rfl⟩
  · exact forecastModelStages_is_ex ex tvalues false o hw

theorem forecastTransformed_all_fail (ex : ℚ → ℚ) (tvalues : List ℚ) (o : ForecastOracle)
    (hA : ∀ ord, o.arima ord = none) (hS : o.smoothing = none)
    (hlen : 7 ≤ tvalues.length) :
    forecastTransformed ex tvalues o = ex (movingAvg (min 3 tvalues.length) tvalues) := by
  have hw : 0 < min 3 tvalues.length := by omega
  unfold forecastTransformed
  split_ifs with h1 h2
  · exact forecastModelStages_all_fail ex tvalues true o hA hS hw
  · rw [listDiff_length] at h2
    omega
  · exact forecastModelStages_all_fail ex tvalues false o hA hS hw

theorem forecastCore_cases (sq lg ex : ℚ → ℚ) (h : List (ℤ × ℚ)) (o : ForecastOracle)
    (hlen : 7 ≤ h.length) :
    forecastCore sq lg ex h o = lastD 0 (sortedValues h)
    ∨ ∃ x, forecastCore sq lg ex h o = ex x := by
  have hw : 0 < min 3 ((sortedValues h).map fun v => lg (max 0 v)).length := by
    rw [List.length_map, sortedValues_length]
    omega
  unfold forecastCore
  split_ifs
  · exact Or.inl rfl
  · exact Or.inl rfl
  · exact Or.inl rfl
  · exact Or.inr (forecastTransformed_is_ex ex _ o hw)

theorem forecastCore_all_fail (sq lg ex : ℚ → ℚ) (h : List (ℤ × ℚ)) (o : ForecastOracle)
    (hA : ∀ ord, o.arima ord = none) (hS : o.smoothing = none) (hlen : 7 ≤ h.length) :
    forecastCore sq lg ex h o = lastD 0 (sortedValues h)
    ∨ forecastCore sq lg ex h o
      = ex (movingAvg (min 3 h.length) ((sortedValues h).map fun v => lg (max 0 v))) := by
  have hlen2 : 7 ≤ ((sortedValues h).map fun v => lg (max 0 v)).length := by
    rw [List.length_map, sortedValues_length]
    exact hlen
  unfold forecastCore
  split_ifs
  · exact Or.inl rfl
  · exact Or.inl rfl
  · exact Or.inl rfl
  · refine Or.inr ?_
    rw [forecastTransformed_all_fail ex _ o hA hS hlen2, List.length_map, sortedValues_length]

theorem pairwise_lastD_max (d : ℤ × ℚ) (l : List (ℤ × ℚ)) (hne : l ≠ [])
    (hs : List.Pairwise (fun p q : ℤ × ℚ => p.1 < q.1) l) :
    ∀ q ∈ l, q.1 ≤ (lastD d l).1 := by
  induction l with
  | nil => exact absurd rfl hne
  | cons a t ih =>
    cases t with
    | nil =>
      intro q hq
      rcases List.mem_cons.mp hq with h1 | h1
      · simp [h1, lastD]
      · simp at h1
    | cons b t2 =>
      have hs2 : List.Pairwise (fun p q : ℤ × ℚ => p.1 < q.1) (b :: t2) :=
        (List.pairwise_cons.mp hs).2
      have ha : ∀ q ∈ b :: t2, a.1 < q.1 := (List.pairwise_cons.mp hs).1
      have ih2 := ih (by simp) hs2
      intro q hq
      rcases List.mem_cons.mp hq with h1 | h1
      · have hlm : lastD d (b :: t2) ∈ b :: t2 := lastD_mem d _ (by simp)
        have := ha _ hlm
        simp only [lastD, h1]
        omega
      · simpa only [lastD] using ih2 q h1

/-- C6 counterexample: a two-point series stored newest-first, as the
provider delivers it, makes the insufficient-data guard return 3, the value
stored last, and not 5, the value of the latest period 2020. -/
theorem forecast_guard_returns_last_stored_not_latest :
    forecast_indicator id id id [(2020, 5), (2018, 3)] ⟨fun _ => none, none⟩ = 3
    ∧ (3 : ℚ) ≠ 5 := by
  constructor
  · simp [forecast_indicator, lastD]
  · norm_num

/-- C6 amended: for a nonempty series under the 7-point minimum of the
insufficient-data guard, the chain returns the last stored value unchanged,
with no model stage entered; this value is the one at the latest period
exactly when the series is stored in increasing period order, which the
claim takes for granted. -/
theorem forecast_insufficient_data_guard (sq lg ex : ℚ → ℚ) (o : ForecastOracle)
    (h : List (ℤ × ℚ)) (hne : h ≠ []) (hlen : h.length < 7) :
    (∃ p ∈ h, forecast_indicator sq lg ex h o = p.2)
    ∧ (List.Pairwise (fun p q : ℤ × ℚ => p.1 < q.1) h →
        ∃ p ∈ h, forecast_indicator sq lg ex h o = p.2 ∧ ∀ q ∈ h, q.1 ≤ p.1) := by
  cases h with
  | nil => exact absurd rfl hne
  | cons p ps =>
    have hfi : forecast_indicator sq lg ex (p :: ps) o = (lastD p (p :: ps)).2 := by
      simp only [forecast_indicator, if_pos hlen]
    have hmem : lastD p (p :: ps) ∈ p :: ps := lastD_mem p _ (by simp)
    refine ⟨⟨_, hmem, hfi⟩, fun hsort => ⟨_, hmem, hfi, ?_⟩⟩
    exact pairwise_lastD_max p (p :: ps) (by simp) hsort

theorem forecast_insufficient_data_guard_witness :
    ∃ p ∈ ([(2018, 3), (2020, 5)] : List (ℤ × ℚ)),
      forecast_indicator id id id [(2018, 3), (2020, 5)] ⟨fun _ => none, none⟩ = p.2
      ∧ ∀ q ∈ ([(2018, 3), (2020, 5)] : List (ℤ × ℚ)), q.1 ≤ p.1 :=
  (forecast_insufficient_data_guard id id id ⟨fun _ => none, none⟩
    [(2018, 3), (2020, 5)] (by simp) (by simp)).2 (by simp)

/-- C1: the forecasting chain is a total function: it returns 0.0 on the
empty series and otherwise either a stored value of the series, via the
insufficient-data, gap, outlier or low-variance guards, or a value produced
by a model stage; and when every ARIMA fit and the smoothing fit fail, the
chain still returns a value, degrading to a guard value or to the moving
average of the last min(3, n) transformed values, so no internal failure
escapes. -/
theorem forecast_indicator_never_fails (sq lg ex : ℚ → ℚ) (h : List (ℤ × ℚ))
    (o : ForecastOracle) :
    (h = [] → forecast_indicator sq lg ex h o = 0)
    ∧ ((h = [] ∧ forecast_indicator sq lg ex h o = 0)
       ∨ (∃ p ∈ h, forecast_indicator sq lg ex h o = p.2)
       ∨ (∃ x, forecast_indicator sq lg ex h o = ex x))
    ∧ ((∀ ord, o.arima ord = none) → o.smoothing = none →
       (h = [] ∧ forecast_indicator sq lg ex h o = 0)
       ∨ (∃ p ∈ h, forecast_indicator sq lg ex h o = p.2)
       ∨ forecast_indicator sq lg ex h o
          = ex (movingAvg (min 3 h.length) ((sortedValues h).map fun v => lg (max 0 v)))) := by
  by_cases h7 : h.length < 7
  · cases h with
    | nil =>
      have h0 : forecast_indicator sq lg ex [] o = 0 := by
        simp [forecast_indicator]
      exact ⟨fun _ => h0, Or.inl ⟨rfl, h0⟩, fun _ _ => Or.inl ⟨rfl, h0⟩⟩
    | cons p ps =>
      have hfi : forecast_indicator sq lg ex (p :: ps) o = (lastD p (p :: ps)).2 := by
        simp only [forecast_indicator, if_pos h7]
      have hmem : lastD p (p :: ps) ∈ p :: ps := lastD_mem p _ (by simp)
      exact ⟨fun hh => by simp at hh,
        Or.inr (Or.inl ⟨_, hmem, hfi⟩),
        fun _ _ => Or.inr (Or.inl ⟨_, hmem, hfi⟩)⟩
  · have hlen : 7 ≤ h.length := by omega
    have hne : h ≠ [] := by
      intro hh
      rw [hh] at hlen
      simp at hlen
    have hvne : sortedValues h ≠ [] := by
      intro hh
      have hl := sortedValues_length h
      rw [hh] at hl
      simp only [List.length_nil] at hl
      omega
    have hfi : forecast_indicator sq lg ex h o = forecastCore sq lg ex h o := by
      simp only [forecast_indicator, if_neg h7]
    have hguard : ∀ hg : forecastCore sq lg ex h o = lastD 0 (sortedValues h),
        ∃ p ∈ h, forecast_indicator sq lg ex h o = p.2 := by
      intro hg
      obtain ⟨p, hp, hpv⟩ := sortedValues_mem (lastD_mem 0 _ hvne)
      exact ⟨p, hp, by rw [hfi, hg, hpv]⟩
    refine ⟨fun hh => absurd hh hne, ?_, fun hA hS => ?_⟩
    · rcases forecastCore_cases sq lg ex h o hlen with hg | ⟨x, hx⟩
      · exact Or.inr (Or.inl (hguard hg))
      · exact Or.inr (Or.inr ⟨x, by rw [hfi, hx]⟩)
    · rcases forecastCore_all_fail sq lg ex h o hA hS hlen with hg | hma
      · exact Or.inr (Or.inl (hguard hg))
      · exact Or.inr (Or.inr (by rw [hfi, hma]))

theorem forecast_indicator_never_fails_witness :
    forecast_indicator id id id [] ⟨fun _ => none, none⟩ = 0
    ∧ ((([(2015, 1), (2016, 2), (2017, 3), (2018, 4), (2019, 5), (2020, 6), (2021, 7)] :
          List (ℤ × ℚ)) = []
        ∧ forecast_indicator id id id
            [(2015, 1), (2016, 2), (2017, 3), (2018, 4), (2019, 5), (2020, 6), (2021, 7)]
            ⟨fun _ => none, none⟩ = 0)
       ∨ (∃ p ∈ ([(2015, 1), (2016, 2), (2017, 3), (2018, 4), (2019, 5), (2020, 6), (2021, 7)] :
            List (ℤ × ℚ)),
          forecast_indicator id id id
            [(2015, 1), (2016, 2), (2017, 3), (2018, 4), (2019, 5), (2020, 6), (2021, 7)]
            ⟨fun _ => none, none⟩ = p.2)
       ∨ forecast_indicator id id id
            [(2015, 1), (2016, 2), (2017, 3), (2018, 4), (2019, 5), (2020, 6), (2021, 7)]
            ⟨fun _ => none, none⟩
          = id (movingAvg
              (min 3 ([(2015, 1), (2016, 2), (2017, 3), (2018, 4), (2019, 5), (2020, 6), (2021, 7)] :
                List (ℤ × ℚ)).length)
              ((sortedValues
                  [(2015, 1), (2016, 2), (2017, 3), (2018, 4), (2019, 5), (2020, 6), (2021, 7)]).map
                fun v => id (max 0 v)))) :=
  ⟨(forecast_indicator_never_fails id id id [] ⟨fun _ => none, none⟩).1 rfl,
   (forecast_indicator_never_fails id id id
      [(2015, 1), (2016, 2), (2017, 3), (2018, 4), (2019, 5), (2020, 6), (2021, 7)]
      ⟨fun _ => none, none⟩).2.2 (fun _ => rfl) rfl⟩
